import Mathlib

/-!
Shallow embedding of the reveal.js-broadcast plugin (repository
junghoocho/reveal.js-broadcast) and verification of its state/event
synchronization protocol.

The repository contains two variants of the plugin:

* `src/unnamed/part_000` — the variant with the full synchronization core:
  debounced state publication (`handleStateChange`, `dispatchStateChange`,
  `stateDispatchTimer`), echo-suppression blackout
  (`lastRemoteStateChange`, `remoteStateChangeBlackout`), event batching
  (`handleCustomEvent`, `dispatchEventQueue`, `eventDispatchTimer`) and
  remote application (`handleReceivedMessage`).  It is embedded below in
  namespace `Part000`.
* `src/broadcast.js` — a simpler variant; its generic structural
  equivalence checker `isEquivalent` is embedded in namespace
  `BroadcastJs`.

JavaScript values stored in a state record are flat comparable scalars
(slide indices, pause flag); they are modelled by `JsVal`, and a JS object
by its ordered own-property list `JsObj`.  `Date.now()` timestamps are
modelled by `Int`.  `setTimeout`/`clearTimeout` are modelled by a list of
pending timer entries carried in the plugin state together with the
`stateDispatchTimer`/`eventDispatchTimer` handle fields that the source
keeps; a timer callback receives exactly the data the source closure
captures.  A session run (`Part000.run`) processes a list of externally
timed events (deck navigation firing `handleStateChange`, `send` events
firing `handleCustomEvent`, socket messages firing
`handleReceivedMessage`), firing every timer that is due before each
external event, as the single-threaded JS event loop does.
-/

set_option autoImplicit false

/-- A JavaScript scalar value as it occurs in a presentation state record
or an event payload: `undefined`, `null`, a number, a string or a
boolean.  Strict equality `===` on these values is decidable equality. -/
inductive JsVal : Type where
  | undef : JsVal
  | null : JsVal
  | num : Int → JsVal
  | str : String → JsVal
  | bool : Bool → JsVal
deriving DecidableEq

/-- A JavaScript object modelled as its ordered list of own properties
(name, value).  Own-property names of a real JS object are distinct; where
a proof needs that, it is an explicit hypothesis. -/
def JsObj : Type := List (String × JsVal)

instance : DecidableEq JsObj := inferInstanceAs (DecidableEq (List (String × JsVal)))

/-- Property access `o[k]`: the value of the first property named `k`, and
`undefined` when no such own property exists. -/
def getProp : JsObj → String → JsVal
  | [], _ => JsVal.undef
  | (k', v) :: rest, k => if k = k' then v else getProp rest k

/-- The list of own-property names of an object
(`Object.getOwnPropertyNames`). -/
def propNames (o : JsObj) : List String := o.map Prod.fst

/-- An outbound or inbound channel message.  Both variants emit on a
single topic an object `{secret, socketId, state?}` or
`{secret, socketId, events?}`; a missing field is `none`. -/
structure Message where
  secret : Option String
  socketId : Option String
  state : Option JsObj
  events : Option (List JsVal)
deriving DecidableEq

/-- Modelled from the spec: "given two StateRecords, returns true iff they
have the same set of field names and every field's value compares equal"
(§4.1).  This is the specification-side contract that claim C4 asserts
`isEquivalent` implements; it is compared against the two source
implementations below. -/
def specEquivalent (a b : JsObj) : Prop :=
  (∀ k, k ∈ propNames a ↔ k ∈ propNames b) ∧
  (∀ k ∈ propNames a, getProp a k = getProp b k)

namespace BroadcastJs

/-- The generic structural equality test of `src/broadcast.js`
(lines 50–74): compare the number of own properties of `a` and `b`, then
for every property name of `a` compare `a[p] === b[p]`; return `true` when
no comparison fails. -/
def isEquivalent (a b : JsObj) : Bool :=
  (propNames a).length == (propNames b).length &&
  (propNames a).all (fun p => decide (getProp a p = getProp b p))

end BroadcastJs

namespace Part000

/-- The plugin options of `src/unnamed/part_000` after the defaults of the
constructor; `Object.assign` may overlay user configuration on them
(`mergeOptions`). -/
structure Options where
  secret : Option String := none
  socketId : Option String := none
  socketUrl : Option String := none
  socketJs : String := "https://cdnjs.cloudflare.com/ajax/libs/socket.io/2.2.0/socket.io.js"
  eventDispatchDelay : Int := 100
  stateDispatchDelay : Int := 500
  remoteStateChangeBlackout : Int := 2000
deriving DecidableEq

/-- A pending `setTimeout` created by `handleStateChange`: the runtime
handle, the instant at which it fires (`now + stateDispatchDelay`), and
the state the callback closure captured at scheduling time. -/
structure StateTimer where
  handle : Nat
  fireAt : Int
  captured : JsObj
deriving DecidableEq

/-- A pending `setTimeout` created by `handleCustomEvent`: the runtime
handle and the instant at which it fires
(`now + (eventDispatchDelay - interval)`). -/
structure EventTimer where
  handle : Nat
  fireAt : Int
deriving DecidableEq

/-- The mutable state of a `BroadCastPlugIn` instance together with the
collaborators the handlers touch: the presentation engine state `deck`
(`deck.getState()`/`deck.setState`), the pending timers of the JS runtime,
the sequence `out` of messages emitted on the socket (with their emission
instants), and the contents re-raised locally as `received` events. -/
structure BroadCastPlugIn where
  deck : JsObj
  lastStateChange : Int
  stateDispatchTimer : Option Nat
  lastSharedState : Option JsObj
  lastRemoteStateChange : Int
  lastEventDispatch : Int
  eventDispatchTimer : Option Nat
  eventQueue : List JsVal
  pendingStateTimers : List StateTimer
  pendingEventTimers : List EventTimer
  nextHandle : Nat
  out : List (Int × Message)
  received : List JsVal
deriving DecidableEq

/-- The constructor state of the plugin (fields of the `constructor`),
with `deck` the initial presentation state. -/
def mkPlugin (deck : JsObj) : BroadCastPlugIn :=
  { deck := deck
    lastStateChange := 0
    stateDispatchTimer := none
    lastSharedState := none
    lastRemoteStateChange := 0
    lastEventDispatch := 0
    eventDispatchTimer := none
    eventQueue := []
    pendingStateTimers := []
    pendingEventTimers := []
    nextHandle := 1
    out := []
    received := [] }

/-- The equivalence test of `src/unnamed/part_000` (lines 55–57): compare
exactly the four fields `indexh`, `indexv`, `indexf` and `paused` with
`===`. -/
def isEquivalent (s1 s2 : JsObj) : Bool :=
  decide (getProp s1 "indexh" = getProp s2 "indexh") &&
  decide (getProp s1 "indexv" = getProp s2 "indexv") &&
  decide (getProp s1 "indexf" = getProp s2 "indexf") &&
  decide (getProp s1 "paused" = getProp s2 "paused")

/-- `dispatchStateChange(state)` (lines 59–67): build the message
`{secret, socketId, state}`, snapshot the state as `lastSharedState`, and
emit the message; `now` is the instant at which the emission happens. -/
def dispatchStateChange (opts : Options) (now : Int) (state : JsObj)
    (p : BroadCastPlugIn) : BroadCastPlugIn :=
  { p with
    lastSharedState := some state
    out := p.out ++ [(now, { secret := opts.secret, socketId := opts.socketId,
                             state := some state, events := none })] }

/-- `handleStateChange()` (lines 69–103): read the current deck state and
`Date.now()`; return if the state is equivalent to `lastSharedState`;
return if still inside the blackout window after a remote state change;
otherwise either dispatch immediately (when `stateDispatchDelay` has
elapsed since `lastStateChange`) or clear any pending state timer and
schedule a new one that captures the state just read; finally record
`lastStateChange = now`. -/
def handleStateChange (opts : Options) (now : Int) (p : BroadCastPlugIn) :
    BroadCastPlugIn :=
  let state := p.deck
  if (p.lastSharedState.elim false (fun ls => isEquivalent state ls)) then p
  else if now - p.lastRemoteStateChange < opts.remoteStateChangeBlackout then p
  else
    let p1 :=
      if now - p.lastStateChange ≥ opts.stateDispatchDelay then
        dispatchStateChange opts now state p
      else
        let pc :=
          match p.stateDispatchTimer with
          | some h =>
            { p with pendingStateTimers :=
                p.pendingStateTimers.filter (fun e => e.handle ≠ h) }
          | none => p
        { pc with
          pendingStateTimers := pc.pendingStateTimers ++
            [{ handle := pc.nextHandle, fireAt := now + opts.stateDispatchDelay,
               captured := state }]
          stateDispatchTimer := some pc.nextHandle
          nextHandle := pc.nextHandle + 1 }
    { p1 with lastStateChange := now }

/-- `dispatchEventQueue()` (lines 105–116): when the queue is non-empty,
swap it to empty, emit one message `{secret, socketId, events}` carrying
the whole batch, and record `lastEventDispatch`; a call with an empty
queue does nothing. -/
def dispatchEventQueue (opts : Options) (now : Int) (p : BroadCastPlugIn) :
    BroadCastPlugIn :=
  if p.eventQueue.length > 0 then
    { p with
      eventQueue := []
      out := p.out ++ [(now, { secret := opts.secret, socketId := opts.socketId,
                               state := none, events := some p.eventQueue })]
      lastEventDispatch := now }
  else p

/-- `handleCustomEvent(data)` (lines 118–137): append the content to the
event queue; flush immediately when `eventDispatchDelay` has elapsed since
the last dispatch, and otherwise schedule a flush timer for the remainder
of the delay — but only when no flush timer is already pending. -/
def handleCustomEvent (opts : Options) (now : Int) (content : JsVal)
    (p : BroadCastPlugIn) : BroadCastPlugIn :=
  let p0 := { p with eventQueue := p.eventQueue ++ [content] }
  let interval := now - p0.lastEventDispatch
  if interval ≥ opts.eventDispatchDelay then
    dispatchEventQueue opts now p0
  else
    match p0.eventDispatchTimer with
    | some _ => p0
    | none =>
      { p0 with
        pendingEventTimers := p0.pendingEventTimers ++
          [{ handle := p0.nextHandle,
             fireAt := now + (opts.eventDispatchDelay - interval) }]
        eventDispatchTimer := some p0.nextHandle
        nextHandle := p0.nextHandle + 1 }

/-- `handleReceivedMessage(data)` (lines 139–156): discard messages whose
`socketId` differs from the configured one; apply a state payload by
snapshotting it as `lastSharedState`, recording `lastRemoteStateChange`
and calling `deck.setState`; re-raise every content of an events payload,
in order, as a local `received` event. -/
def handleReceivedMessage (opts : Options) (now : Int) (data : Message)
    (p : BroadCastPlugIn) : BroadCastPlugIn :=
  if data.socketId ≠ opts.socketId then p
  else
    let p1 :=
      match data.state with
      | some s =>
        { p with lastSharedState := some s, lastRemoteStateChange := now, deck := s }
      | none => p
    match data.events with
    | some es => { p1 with received := p1.received ++ es }
    | none => p1

/-- Whether a timer with fire instant `ft` is due by `upTo` (`none` means
the run is over and every pending timer eventually fires). -/
def dueBy (upTo : Option Int) (ft : Int) : Bool :=
  match upTo with
  | none => true
  | some u => decide (ft ≤ u)

/-- Firing one pending state timer: the runtime drops the entry, the
callback (lines 97–100) clears `stateDispatchTimer` and then calls
`dispatchStateChange` with the state captured at scheduling time. -/
def fireStateEntry (opts : Options) (e : StateTimer) (p : BroadCastPlugIn) :
    BroadCastPlugIn :=
  dispatchStateChange opts e.fireAt e.captured
    { p with
      pendingStateTimers := p.pendingStateTimers.filter (fun x => x.handle ≠ e.handle)
      stateDispatchTimer := none }

/-- Firing one pending event timer: the runtime drops the entry, the
callback (lines 131–134) clears `eventDispatchTimer` and then calls
`dispatchEventQueue`. -/
def fireEventEntry (opts : Options) (e : EventTimer) (p : BroadCastPlugIn) :
    BroadCastPlugIn :=
  dispatchEventQueue opts e.fireAt
    { p with
      pendingEventTimers := p.pendingEventTimers.filter (fun x => x.handle ≠ e.handle)
      eventDispatchTimer := none }

/-- Fire, in order, every timer of the given list of pending state timers
that is due by `upTo`. -/
def fireStateList (opts : Options) (upTo : Option Int) :
    List StateTimer → BroadCastPlugIn → BroadCastPlugIn
  | [], p => p
  | e :: es, p =>
    if dueBy upTo e.fireAt then fireStateList opts upTo es (fireStateEntry opts e p)
    else fireStateList opts upTo es p

/-- Fire, in order, every timer of the given list of pending event timers
that is due by `upTo`. -/
def fireEventList (opts : Options) (upTo : Option Int) :
    List EventTimer → BroadCastPlugIn → BroadCastPlugIn
  | [], p => p
  | e :: es, p =>
    if dueBy upTo e.fireAt then fireEventList opts upTo es (fireEventEntry opts e p)
    else fireEventList opts upTo es p

/-- Fire every pending timer that is due by `upTo` (state timers, then
event timers; claims never depend on the relative order of the two
kinds). -/
def fireDue (opts : Options) (upTo : Option Int) (p : BroadCastPlugIn) :
    BroadCastPlugIn :=
  let p1 := fireStateList opts upTo p.pendingStateTimers p
  fireEventList opts upTo p1.pendingEventTimers p1

/-- An external stimulus of a session: the presentation engine navigates
to state `s` and fires a lifecycle notification (`slidechanged`,
`fragmentshown`, …) wired to `handleStateChange`; a local `send` event
wired to `handleCustomEvent`; or an inbound socket message wired to
`handleReceivedMessage`. -/
inductive ExtEvent : Type where
  | stateChange : JsObj → ExtEvent
  | customEvent : JsVal → ExtEvent
  | received : Message → ExtEvent

/-- Process one externally timed stimulus: first fire every timer due by
its instant, then run the corresponding handler. -/
def step (opts : Options) (p : BroadCastPlugIn) (te : Int × ExtEvent) :
    BroadCastPlugIn :=
  let p1 := fireDue opts (some te.1) p
  match te.2 with
  | ExtEvent.stateChange s => handleStateChange opts te.1 { p1 with deck := s }
  | ExtEvent.customEvent c => handleCustomEvent opts te.1 c p1
  | ExtEvent.received d => handleReceivedMessage opts te.1 d p1

/-- Run a session over a list of externally timed stimuli. -/
def run (opts : Options) : List (Int × ExtEvent) → BroadCastPlugIn → BroadCastPlugIn
  | [], p => p
  | te :: rest, p => run opts rest (step opts p te)

/-- Let every still-pending timer fire after the last external stimulus. -/
def drain (opts : Options) (p : BroadCastPlugIn) : BroadCastPlugIn :=
  fireDue opts none p

/-- User-supplied plugin configuration (the object under the `broadcast`
key of the reveal configuration); a `none` field is an absent key. -/
structure UserConfig where
  secret : Option String := none
  socketId : Option String := none
  socketUrl : Option String := none
  socketJs : Option String := none
  eventDispatchDelay : Option Int := none
  stateDispatchDelay : Option Int := none
  remoteStateChangeBlackout : Option Int := none

/-- `Object.assign(this.options, reveal.getConfig()[this.id])`: every key
present in the user configuration overrides the default. -/
def mergeOptions (base : Options) (cfg : UserConfig) : Options :=
  { secret := (cfg.secret.map some).getD base.secret
    socketId := (cfg.socketId.map some).getD base.socketId
    socketUrl := (cfg.socketUrl.map some).getD base.socketUrl
    socketJs := cfg.socketJs.getD base.socketJs
    eventDispatchDelay := cfg.eventDispatchDelay.getD base.eventDispatchDelay
    stateDispatchDelay := cfg.stateDispatchDelay.getD base.stateDispatchDelay
    remoteStateChangeBlackout :=
      cfg.remoteStateChangeBlackout.getD base.remoteStateChangeBlackout }

/-- Truthiness of an optional string (`if (this.options.secret)`,
`if (this.options.socketId)`): present and non-empty. -/
def truthy : Option String → Bool
  | none => false
  | some s => !s.isEmpty

/-- The observable outcome of `init` (lines 177–212): whether the socket
script is loaded and a connection attempted, and whether the connect
callback sets up the master broadcaster (`setupMaster`) and the message
listener (`setupClient`). -/
structure InitResult where
  scriptLoaded : Bool
  masterSetup : Bool
  clientSetup : Bool
deriving DecidableEq

/-- The inert outcome: no script load, no publisher, no subscriber. -/
def inertInit : InitResult :=
  { scriptLoaded := false, masterSetup := false, clientSetup := false }

/-- `init(reveal)` of `src/unnamed/part_000`: merge the user configuration
over the defaults; when `options.socketId` is `undefined`, return without
doing anything; otherwise load the socket script and, on connect, set up
the master when `options.secret` is truthy and the client when
`options.socketId` is truthy. -/
def init (cfg : UserConfig) : Options × InitResult :=
  let opts := mergeOptions { } cfg
  if opts.socketId = none then (opts, inertInit)
  else
    (opts,
     { scriptLoaded := true
       masterSetup := truthy opts.secret
       clientSetup := truthy opts.socketId })

end Part000

/-! Concrete inputs used by the counterexample and witness theorems below. -/

/-- A presentation state at slide 0. -/
def exS0 : JsObj := [("indexh", JsVal.num 0)]

/-- A presentation state at slide 1. -/
def exS1 : JsObj := [("indexh", JsVal.num 1)]

/-- The default options (stateDispatchDelay 500, eventDispatchDelay 100,
remoteStateChangeBlackout 2000). -/
def exOpts : Part000.Options := { }

/-- Options of a publisher-capable instance on channel `main`. -/
def exOptsMain : Part000.Options := { secret := some "s3cret", socketId := some "main" }

/-- Deck navigates to slide 0 at 2000, to slide 1 at 2100 and back to
slide 0 at 2200: the second change schedules a trailing publish that
captures slide 1; the third change is suppressed by the equivalence guard,
so the deck differs from the captured state when the timer fires at
2600. -/
def c1trace : List (Int × Part000.ExtEvent) :=
  [(2000, Part000.ExtEvent.stateChange exS0),
   (2100, Part000.ExtEvent.stateChange exS1),
   (2200, Part000.ExtEvent.stateChange exS0)]

/-- Two state changes 100 ms apart (window shorter than
stateDispatchDelay = 500). -/
def c2trace : List (Int × Part000.ExtEvent) :=
  [(2000, Part000.ExtEvent.stateChange exS0),
   (2100, Part000.ExtEvent.stateChange exS1)]

/-- Three custom events 10 ms apart (within eventDispatchDelay = 100 of
each other), the first arriving 1000 ms after the last dispatch. -/
def c7trace : List (Int × Part000.ExtEvent) :=
  [(1000, Part000.ExtEvent.customEvent (JsVal.num 1)),
   (1010, Part000.ExtEvent.customEvent (JsVal.num 2)),
   (1020, Part000.ExtEvent.customEvent (JsVal.num 3))]

/-- Three custom events at 90, 95 and 120: pairwise within
eventDispatchDelay = 100 of each other and the first inside the window
since the last dispatch (at 0), but the third arrives only after the
flush timer's deadline (100) has passed. -/
def c7trace2 : List (Int × Part000.ExtEvent) :=
  [(90, Part000.ExtEvent.customEvent (JsVal.num 1)),
   (95, Part000.ExtEvent.customEvent (JsVal.num 2)),
   (120, Part000.ExtEvent.customEvent (JsVal.num 3))]

/-- Record with an `undefined`-valued own property `y`. -/
def c4a : JsObj := [("x", JsVal.num 1), ("y", JsVal.undef)]

/-- Record with an `undefined`-valued own property `z`. -/
def c4b : JsObj := [("x", JsVal.num 1), ("z", JsVal.undef)]

/-- A full reveal state carrying an extra `overview` field. -/
def c4p : JsObj :=
  [("indexh", JsVal.num 1), ("indexv", JsVal.num 0), ("indexf", JsVal.num 0),
   ("paused", JsVal.bool false), ("overview", JsVal.bool false)]

/-- The same state as `c4p` except for the `overview` field. -/
def c4q : JsObj :=
  [("indexh", JsVal.num 1), ("indexv", JsVal.num 0), ("indexf", JsVal.num 0),
   ("paused", JsVal.bool false), ("overview", JsVal.bool true)]

/-- A one-field record used as a witness input. -/
def c4w : JsObj := [("x", JsVal.num 1)]

/-- A well-formed state message of channel `main`. -/
def exMsgRemote : Message :=
  { secret := none, socketId := some "main", state := some exS1, events := none }

/-- A well-formed message of a foreign channel `other`. -/
def exMsgForeign : Message :=
  { secret := none, socketId := some "other", state := some exS1,
    events := some [JsVal.num 7] }

/-- A pending trailing-publish timer that captured the slide-1 state. -/
def c10timer : Part000.StateTimer := { handle := 1, fireAt := 600, captured := exS1 }

/-- A plugin with the timer `c10timer` pending. -/
def c10plugin : Part000.BroadCastPlugIn :=
  { Part000.mkPlugin exS0 with
    pendingStateTimers := [c10timer], stateDispatchTimer := some 1,
    nextHandle := 2, lastStateChange := 550 }

/-- A plugin whose last recorded state change was at 2000, so a further
change at 2100 falls inside the debounce window. -/
def c1plugin : Part000.BroadCastPlugIn :=
  { Part000.mkPlugin exS0 with lastStateChange := 2000 }

/-- Invariant for the rate-bound argument (claim C2): during a burst of
`handleStateChange` calls that all happen at instants of `[t1, tN]` with
`tN - t1 < stateDispatchDelay`, the plugin has emitted at most one
message, `lastStateChange` is either still its initial value `L0` or at
least `t1`, an emission forces the latter, every pending state timer
fires only after `tN`, and no event timer is pending. -/
def RateInv (L0 t1 tN : Int) (p : Part000.BroadCastPlugIn) : Prop :=
  p.pendingEventTimers = [] ∧
  p.out.length ≤ 1 ∧
  (p.lastStateChange = L0 ∨ t1 ≤ p.lastStateChange) ∧
  (p.out ≠ [] → t1 ≤ p.lastStateChange) ∧
  (∀ e ∈ p.pendingStateTimers, tN < e.fireAt)

/-- Invariant for the idempotence argument (claim C5): while the deck
state stays `s`, a session that started with no pending timers and no
output is in one of three configurations: nothing emitted and no timer;
nothing emitted and exactly one trailing timer that captured `s` and fires
`stateDispatchDelay` after `lastStateChange`; or exactly one emission made
and `lastSharedState` equivalent to `s`. -/
def IdemInv (opts : Part000.Options) (s : JsObj) (p : Part000.BroadCastPlugIn) : Prop :=
  p.pendingEventTimers = [] ∧
  ((p.out = [] ∧ p.stateDispatchTimer = none ∧ p.pendingStateTimers = []) ∨
   (∃ h ft, p.out = [] ∧ p.stateDispatchTimer = some h ∧
      p.pendingStateTimers = [{ handle := h, fireAt := ft, captured := s }] ∧
      ft = p.lastStateChange + opts.stateDispatchDelay) ∨
   (∃ s', p.out.length = 1 ∧ p.stateDispatchTimer = none ∧ p.pendingStateTimers = [] ∧
      p.lastSharedState = some s' ∧ Part000.isEquivalent s s' = true))

/-- Invariant for the timer-uniqueness argument (claim C8): each of the
two timer-handle fields is `none` with no pending timer of its kind, or
holds the handle of the single pending timer of its kind. -/
def TimerWired (p : Part000.BroadCastPlugIn) : Prop :=
  ((p.stateDispatchTimer = none ∧ p.pendingStateTimers = []) ∨
   (∃ e : Part000.StateTimer,
      p.stateDispatchTimer = some e.handle ∧ p.pendingStateTimers = [e])) ∧
  ((p.eventDispatchTimer = none ∧ p.pendingEventTimers = []) ∨
   (∃ e : Part000.EventTimer,
      p.eventDispatchTimer = some e.handle ∧ p.pendingEventTimers = [e]))

/-! Helper lemmas about the embedded operations. -/

/-- The four-field equivalence test is reflexive. -/
theorem isEquivalent_refl (s : JsObj) : Part000.isEquivalent s s = true := by
  simp [Part000.isEquivalent]

/-- Accessing an absent own property yields `undefined`. -/
theorem getProp_eq_undef_of_not_mem {o : JsObj} {k : String} (h : k ∉ propNames o) :
    getProp o k = JsVal.undef := by
  induction o with
  | nil => rfl
  | cons kv rest ih =>
    obtain ⟨k', v⟩ := kv
    simp only [propNames, List.map_cons, List.mem_cons, not_or] at h
    simpa [getProp, h.1] using ih (by simpa [propNames] using h.2)

/-- Firing an empty list of state timers does nothing. -/
theorem fireStateList_nil (opts : Part000.Options) (upTo : Option Int)
    (p : Part000.BroadCastPlugIn) : Part000.fireStateList opts upTo [] p = p := rfl

/-- Firing an empty list of event timers does nothing. -/
theorem fireEventList_nil (opts : Part000.Options) (upTo : Option Int)
    (p : Part000.BroadCastPlugIn) : Part000.fireEventList opts upTo [] p = p := rfl

/-- A list of state timers none of which is due fires nothing. -/
theorem fireStateList_eq_of_not_due (opts : Part000.Options) (upTo : Option Int)
    (es : List Part000.StateTimer) (p : Part000.BroadCastPlugIn)
    (h : ∀ e ∈ es, Part000.dueBy upTo e.fireAt = false) :
    Part000.fireStateList opts upTo es p = p := by
  induction es generalizing p with
  | nil => rfl
  | cons e es ih =>
    have he := h e (List.mem_cons_self e es)
    simp only [Part000.fireStateList, he, Bool.false_eq_true, if_false]
    exact ih p fun x hx => h x (List.mem_cons_of_mem _ hx)

/-- A list of event timers none of which is due fires nothing. -/
theorem fireEventList_eq_of_not_due (opts : Part000.Options) (upTo : Option Int)
    (es : List Part000.EventTimer) (p : Part000.BroadCastPlugIn)
    (h : ∀ e ∈ es, Part000.dueBy upTo e.fireAt = false) :
    Part000.fireEventList opts upTo es p = p := by
  induction es generalizing p with
  | nil => rfl
  | cons e es ih =>
    have he := h e (List.mem_cons_self e es)
    simp only [Part000.fireEventList, he, Bool.false_eq_true, if_false]
    exact ih p fun x hx => h x (List.mem_cons_of_mem _ hx)

/-- When no pending timer of either kind is due, `fireDue` does
nothing. -/
theorem fireDue_eq_self (opts : Part000.Options) (upTo : Option Int)
    (p : Part000.BroadCastPlugIn)
    (hs : ∀ e ∈ p.pendingStateTimers, Part000.dueBy upTo e.fireAt = false)
    (he : ∀ e ∈ p.pendingEventTimers, Part000.dueBy upTo e.fireAt = false) :
    Part000.fireDue opts upTo p = p := by
  show Part000.fireEventList opts upTo
      (Part000.fireStateList opts upTo p.pendingStateTimers p).pendingEventTimers
      (Part000.fireStateList opts upTo p.pendingStateTimers p) = p
  rw [fireStateList_eq_of_not_due opts upTo _ p hs]
  exact fireEventList_eq_of_not_due opts upTo _ p he

/-- Firing the single pending state timer `e` (no event timer pending)
clears the marker, removes the entry and publishes the captured state at
the fire instant. -/
theorem fireDue_single_state (opts : Part000.Options) (upTo : Option Int)
    (p : Part000.BroadCastPlugIn) (e : Part000.StateTimer)
    (hpt : p.pendingStateTimers = [e]) (hev : p.pendingEventTimers = [])
    (hdue : Part000.dueBy upTo e.fireAt = true) :
    Part000.fireDue opts upTo p =
      { p with pendingStateTimers := [], stateDispatchTimer := none,
               lastSharedState := some e.captured,
               out := p.out ++ [(e.fireAt,
                 { secret := opts.secret, socketId := opts.socketId,
                   state := some e.captured, events := none })] } := by
  show Part000.fireEventList opts upTo
      (Part000.fireStateList opts upTo p.pendingStateTimers p).pendingEventTimers
      (Part000.fireStateList opts upTo p.pendingStateTimers p) = _
  rw [hpt]
  simp only [Part000.fireStateList, hdue, if_true]
  unfold Part000.fireStateEntry Part000.dispatchStateChange
  simp [hpt, hev, fireEventList_nil]

/-- Firing the single pending event timer `e` (no state timer pending,
non-empty queue) clears the marker, removes the entry and flushes the
whole queue at the fire instant. -/
theorem fireDue_single_event (opts : Part000.Options) (upTo : Option Int)
    (p : Part000.BroadCastPlugIn) (e : Part000.EventTimer)
    (hpt : p.pendingStateTimers = []) (hev : p.pendingEventTimers = [e])
    (hdue : Part000.dueBy upTo e.fireAt = true) (hq : p.eventQueue ≠ []) :
    Part000.fireDue opts upTo p =
      { p with pendingEventTimers := [], eventDispatchTimer := none,
               eventQueue := [],
               out := p.out ++ [(e.fireAt,
                 { secret := opts.secret, socketId := opts.socketId,
                   state := none, events := some p.eventQueue })],
               lastEventDispatch := e.fireAt } := by
  show Part000.fireEventList opts upTo
      (Part000.fireStateList opts upTo p.pendingStateTimers p).pendingEventTimers
      (Part000.fireStateList opts upTo p.pendingStateTimers p) = _
  rw [hpt, fireStateList_nil, hev]
  simp only [Part000.fireEventList, hdue, if_true]
  unfold Part000.fireEventEntry Part000.dispatchEventQueue
  have hlen : 0 < p.eventQueue.length := List.length_pos.mpr hq
  simp [hpt, hev, fireEventList_nil, hlen]

/-- Unfolding `run` over a cons cell. -/
theorem run_cons (opts : Part000.Options) (te : Int × Part000.ExtEvent)
    (rest : List (Int × Part000.ExtEvent)) (p : Part000.BroadCastPlugIn) :
    Part000.run opts (te :: rest) p = Part000.run opts rest (Part000.step opts p te) := rfl

/-- Unfolding `step` at a deck navigation. -/
theorem step_stateChange (opts : Part000.Options) (p : Part000.BroadCastPlugIn)
    (t : Int) (s : JsObj) :
    Part000.step opts p (t, Part000.ExtEvent.stateChange s) =
      Part000.handleStateChange opts t
        { Part000.fireDue opts (some t) p with deck := s } := rfl

/-- Unfolding `step` at a local custom event. -/
theorem step_customEvent (opts : Part000.Options) (p : Part000.BroadCastPlugIn)
    (t : Int) (c : JsVal) :
    Part000.step opts p (t, Part000.ExtEvent.customEvent c) =
      Part000.handleCustomEvent opts t c (Part000.fireDue opts (some t) p) := rfl

/-- A state-change notification is a no-op when the current state is
equivalent to the last shared one. -/
theorem hsc_noop_of_equiv (opts : Part000.Options) (now : Int)
    (p : Part000.BroadCastPlugIn)
    (h : p.lastSharedState.elim false (fun ls => Part000.isEquivalent p.deck ls) = true) :
    Part000.handleStateChange opts now p = p := by
  unfold Part000.handleStateChange
  simp [h]

/-- A state-change notification inside the blackout window is a no-op. -/
theorem hsc_noop_of_blackout (opts : Part000.Options) (now : Int)
    (p : Part000.BroadCastPlugIn)
    (h : now - p.lastRemoteStateChange < opts.remoteStateChangeBlackout) :
    Part000.handleStateChange opts now p = p := by
  unfold Part000.handleStateChange
  by_cases hg : p.lastSharedState.elim false (fun ls => Part000.isEquivalent p.deck ls) = true
  · simp [hg]
  · simp [hg, h]

/-- Outside the blackout, with a non-equivalent state and the dispatch
delay elapsed, a state-change notification publishes immediately. -/
theorem hsc_immediate (opts : Part000.Options) (now : Int)
    (p : Part000.BroadCastPlugIn)
    (hg : p.lastSharedState.elim false (fun ls => Part000.isEquivalent p.deck ls) = false)
    (hb : ¬ (now - p.lastRemoteStateChange < opts.remoteStateChangeBlackout))
    (hf : now - p.lastStateChange ≥ opts.stateDispatchDelay) :
    Part000.handleStateChange opts now p =
      { p with lastSharedState := some p.deck,
               out := p.out ++ [(now, { secret := opts.secret, socketId := opts.socketId,
                                        state := some p.deck, events := none })],
               lastStateChange := now } := by
  unfold Part000.handleStateChange Part000.dispatchStateChange
  simp [hg, hb, hf]

/-- Outside the blackout, with a non-equivalent state, inside the
dispatch window and with no pending timer handle, a state-change
notification schedules a trailing timer capturing the current state. -/
theorem hsc_schedule_none (opts : Part000.Options) (now : Int)
    (p : Part000.BroadCastPlugIn)
    (hg : p.lastSharedState.elim false (fun ls => Part000.isEquivalent p.deck ls) = false)
    (hb : ¬ (now - p.lastRemoteStateChange < opts.remoteStateChangeBlackout))
    (hf : ¬ (now - p.lastStateChange ≥ opts.stateDispatchDelay))
    (ht : p.stateDispatchTimer = none) :
    Part000.handleStateChange opts now p =
      { p with pendingStateTimers := p.pendingStateTimers ++
                 [{ handle := p.nextHandle, fireAt := now + opts.stateDispatchDelay,
                    captured := p.deck }],
               stateDispatchTimer := some p.nextHandle,
               nextHandle := p.nextHandle + 1,
               lastStateChange := now } := by
  unfold Part000.handleStateChange
  simp [hg, hb, hf, ht]

/-- As `hsc_schedule_none`, but with a pending timer handle, which is
cleared before the new timer is scheduled. -/
theorem hsc_schedule_some (opts : Part000.Options) (now : Int)
    (p : Part000.BroadCastPlugIn) (h : Nat)
    (hg : p.lastSharedState.elim false (fun ls => Part000.isEquivalent p.deck ls) = false)
    (hb : ¬ (now - p.lastRemoteStateChange < opts.remoteStateChangeBlackout))
    (hf : ¬ (now - p.lastStateChange ≥ opts.stateDispatchDelay))
    (ht : p.stateDispatchTimer = some h) :
    Part000.handleStateChange opts now p =
      { p with pendingStateTimers :=
                 p.pendingStateTimers.filter (fun e => e.handle ≠ h) ++
                 [{ handle := p.nextHandle, fireAt := now + opts.stateDispatchDelay,
                    captured := p.deck }],
               stateDispatchTimer := some p.nextHandle,
               nextHandle := p.nextHandle + 1,
               lastStateChange := now } := by
  unfold Part000.handleStateChange
  simp [hg, hb, hf, ht]

/-- A custom event arriving once the dispatch delay has elapsed flushes
the whole queue (with the new event appended) immediately. -/
theorem hce_immediate (opts : Part000.Options) (now : Int) (c : JsVal)
    (p : Part000.BroadCastPlugIn)
    (h : now - p.lastEventDispatch ≥ opts.eventDispatchDelay) :
    Part000.handleCustomEvent opts now c p =
      { p with eventQueue := [],
               out := p.out ++ [(now, { secret := opts.secret, socketId := opts.socketId,
                                        state := none,
                                        events := some (p.eventQueue ++ [c]) })],
               lastEventDispatch := now } := by
  unfold Part000.handleCustomEvent Part000.dispatchEventQueue
  simp [h]

/-- A custom event inside the dispatch window with a flush timer already
pending only joins the queue. -/
theorem hce_ride (opts : Part000.Options) (now : Int) (c : JsVal)
    (p : Part000.BroadCastPlugIn) (h' : Nat)
    (h : ¬ (now - p.lastEventDispatch ≥ opts.eventDispatchDelay))
    (ht : p.eventDispatchTimer = some h') :
    Part000.handleCustomEvent opts now c p =
      { p with eventQueue := p.eventQueue ++ [c] } := by
  unfold Part000.handleCustomEvent
  simp [h, ht]

/-- A custom event inside the dispatch window with no flush timer pending
joins the queue and schedules the flush for the remainder of the delay. -/
theorem hce_schedule (opts : Part000.Options) (now : Int) (c : JsVal)
    (p : Part000.BroadCastPlugIn)
    (h : ¬ (now - p.lastEventDispatch ≥ opts.eventDispatchDelay))
    (ht : p.eventDispatchTimer = none) :
    Part000.handleCustomEvent opts now c p =
      { p with eventQueue := p.eventQueue ++ [c],
               pendingEventTimers := p.pendingEventTimers ++
                 [{ handle := p.nextHandle,
                    fireAt := now + (opts.eventDispatchDelay - (now - p.lastEventDispatch)) }],
               eventDispatchTimer := some p.nextHandle,
               nextHandle := p.nextHandle + 1 } := by
  unfold Part000.handleCustomEvent
  simp [h, ht]

/-- Effect of receiving a state message of the instance's own channel on
every field of the plugin. -/
theorem hrm_state_fields (opts : Part000.Options) (now : Int) (data : Message)
    (p : Part000.BroadCastPlugIn) (s : JsObj)
    (hid : data.socketId = opts.socketId) (hs : data.state = some s) :
    (Part000.handleReceivedMessage opts now data p).lastRemoteStateChange = now ∧
    (Part000.handleReceivedMessage opts now data p).lastSharedState = some s ∧
    (Part000.handleReceivedMessage opts now data p).deck = s ∧
    (Part000.handleReceivedMessage opts now data p).pendingStateTimers = p.pendingStateTimers ∧
    (Part000.handleReceivedMessage opts now data p).stateDispatchTimer = p.stateDispatchTimer ∧
    (Part000.handleReceivedMessage opts now data p).pendingEventTimers = p.pendingEventTimers ∧
    (Part000.handleReceivedMessage opts now data p).eventDispatchTimer = p.eventDispatchTimer ∧
    (Part000.handleReceivedMessage opts now data p).out = p.out := by
  unfold Part000.handleReceivedMessage
  rw [if_neg (by simp [hid]), hs]
  cases data.events <;> simp

/-- Claim C6 (confirmed): an inbound message whose `socketId` differs from
the instance's configured `socketId` is discarded by
`handleReceivedMessage`: the whole plugin state — deck, `received` events,
`lastSharedState`, `lastRemoteStateChange` and everything else — is left
unchanged. -/
theorem foreign_message_discarded (opts : Part000.Options) (now : Int) (data : Message)
    (p : Part000.BroadCastPlugIn) (h : data.socketId ≠ opts.socketId) :
    Part000.handleReceivedMessage opts now data p = p := by
  unfold Part000.handleReceivedMessage
  rw [if_pos h]

/-- Witness for `foreign_message_discarded`: a state-and-events message of
channel `other` received by the instance configured for `main`. -/
theorem foreign_message_discarded_witness :
    exMsgForeign.socketId ≠ exOptsMain.socketId ∧
    Part000.handleReceivedMessage exOptsMain 5 exMsgForeign (Part000.mkPlugin exS0) =
      Part000.mkPlugin exS0 :=
  ⟨by decide,
   foreign_message_discarded exOptsMain 5 exMsgForeign (Part000.mkPlugin exS0) (by decide)⟩

/-- Claim C3 (confirmed): after a remote state is applied at time `T` by
`handleReceivedMessage`, a `handleStateChange` call at any `t` of
`[T, T + remoteStateChangeBlackout)` is a complete no-op — it emits
nothing and changes nothing — whatever the engine state `d` is at that
moment (in particular even when `d` differs from `lastSharedState`). -/
theorem echo_suppression (opts : Part000.Options) (p : Part000.BroadCastPlugIn)
    (data : Message) (T t : Int) (d : JsObj)
    (hid : data.socketId = opts.socketId) (hst : data.state.isSome = true)
    (hT : T ≤ t) (hwin : t - T < opts.remoteStateChangeBlackout) :
    Part000.handleStateChange opts t
        { Part000.handleReceivedMessage opts T data p with deck := d } =
      { Part000.handleReceivedMessage opts T data p with deck := d } := by
  obtain ⟨s, hs⟩ := Option.isSome_iff_exists.mp hst
  have hf := hrm_state_fields opts T data p s hid hs
  apply hsc_noop_of_blackout
  simpa [hf.1] using hwin

/-- Witness for `echo_suppression`: channel `main`, remote state applied
at 100, local change at 600 with engine state back at slide 0. -/
theorem echo_suppression_witness :
    (exMsgRemote.socketId = exOptsMain.socketId ∧ exMsgRemote.state.isSome = true ∧
     (100 : Int) ≤ 600 ∧ (600 : Int) - 100 < exOptsMain.remoteStateChangeBlackout) ∧
    Part000.handleStateChange exOptsMain 600
        { Part000.handleReceivedMessage exOptsMain 100 exMsgRemote (Part000.mkPlugin exS0) with
          deck := exS0 } =
      { Part000.handleReceivedMessage exOptsMain 100 exMsgRemote (Part000.mkPlugin exS0) with
        deck := exS0 } :=
  ⟨⟨by decide, by decide, by decide, by decide⟩,
   echo_suppression exOptsMain (Part000.mkPlugin exS0) exMsgRemote 100 600 exS0
     (by decide) (by decide) (by decide) (by decide)⟩

/-- Claim C9 (confirmed): when no `socketId` is present in the user
configuration (and hence in the merged options, whose default has none),
`init` returns the inert outcome: the socket script is not loaded, no
master broadcaster and no client listener are set up, and `init` is a
total function — a silent no-op, not an error. -/
theorem init_inert_without_socketId (cfg : Part000.UserConfig)
    (h : cfg.socketId = none) : (Part000.init cfg).2 = Part000.inertInit := by
  unfold Part000.init
  simp [Part000.mergeOptions, h]

/-- Witness for `init_inert_without_socketId`: the empty configuration. -/
theorem init_inert_without_socketId_witness :
    ({ } : Part000.UserConfig).socketId = none ∧
    (Part000.init { }).2 = Part000.inertInit :=
  ⟨rfl, init_inert_without_socketId { } rfl⟩

/-- Counterexample for claim C4: `isEquivalent` is not equivalent to the
spec contract "same set of field names and every field's value compares
equal".  The broadcast.js version accepts `{x:1, y:undefined}` versus
`{x:1, z:undefined}` (different field-name sets), because it only counts
`b`'s properties and reads `b[p]` for `a`'s names; the part_000 version
accepts two full reveal states that differ in their `overview` field,
because it only compares `indexh`, `indexv`, `indexf` and `paused`. -/
theorem isEquivalent_not_iff_spec :
    BroadcastJs.isEquivalent c4a c4b = true ∧ ¬ specEquivalent c4a c4b ∧
    Part000.isEquivalent c4p c4q = true ∧ ¬ specEquivalent c4p c4q := by
  refine ⟨by decide, ?_, by decide, ?_⟩
  · rintro ⟨hn, -⟩
    exact absurd ((hn "y").mp (by decide)) (by decide)
  · rintro ⟨-, hv⟩
    exact absurd (hv "overview" (by decide)) (by decide)

/-- Claim C4 (amended): when two records have the same set of field names
and every field's value compares equal, both implementations of
`isEquivalent` return `true` (for the broadcast.js one, given that the
own-property names are distinct, as they are for real JS objects); the
converse direction is refuted by `isEquivalent_not_iff_spec`. -/
theorem spec_equivalent_implies_isEquivalent (a b : JsObj)
    (ha : (propNames a).Nodup) (hb : (propNames b).Nodup)
    (h : specEquivalent a b) :
    BroadcastJs.isEquivalent a b = true ∧ Part000.isEquivalent a b = true := by
  obtain ⟨hn, hv⟩ := h
  have hgp : ∀ k, getProp a k = getProp b k := by
    intro k
    by_cases hk : k ∈ propNames a
    · exact hv k hk
    · rw [getProp_eq_undef_of_not_mem hk,
          getProp_eq_undef_of_not_mem (fun hm => hk ((hn k).mpr hm))]
  have hlen : (propNames a).length = (propNames b).length :=
    ((List.perm_ext_iff_of_nodup ha hb).mpr hn).length_eq
  constructor
  · simp only [BroadcastJs.isEquivalent, Bool.and_eq_true, beq_iff_eq, List.all_eq_true]
    exact ⟨hlen, fun p _ => decide_eq_true (hgp p)⟩
  · simp [Part000.isEquivalent, hgp]

/-- Witness for `spec_equivalent_implies_isEquivalent` at a concrete
record. -/
theorem spec_equivalent_implies_isEquivalent_witness :
    ((propNames c4w).Nodup ∧ specEquivalent c4w c4w) ∧
    (BroadcastJs.isEquivalent c4w c4w = true ∧ Part000.isEquivalent c4w c4w = true) :=
  ⟨⟨by decide, ⟨fun _ => Iff.rfl, fun _ _ => rfl⟩⟩,
   spec_equivalent_implies_isEquivalent c4w c4w (by decide) (by decide)
     ⟨fun _ => Iff.rfl, fun _ _ => rfl⟩⟩

/-- Counterexample for claim C1: the trailing timer does not re-read the
engine state at fire time.  Running `c1trace` from the constructor state:
the change at 2000 publishes slide 0 immediately; the change at 2100
schedules a timer capturing slide 1; the change back to slide 0 at 2200 is
suppressed by the equivalence guard and leaves the timer untouched; the
timer fires at 2600 and publishes the captured slide-1 state although the
engine is then at slide 0. -/
theorem trailing_publish_not_reread_cex :
    (Part000.drain exOpts (Part000.run exOpts c1trace (Part000.mkPlugin exS0))).out.map
        (fun m => m.2.state) = [some exS0, some exS1] ∧
    (Part000.drain exOpts (Part000.run exOpts c1trace (Part000.mkPlugin exS0))).deck = exS0 ∧
    exS1 ≠ exS0 :=
  ⟨by decide, by decide, by decide⟩

/-- Claim C1 (amended): when `handleStateChange` runs inside the debounce
window (all three guards as hypotheses), it schedules a timer whose entry
captures the state read at the start of the call; when that timer fires,
it first clears the pending-timer marker and then publishes the captured
state — whatever the engine state `d` is at fire time. -/
theorem trailing_timer_publishes_captured (opts : Part000.Options) (now : Int)
    (p : Part000.BroadCastPlugIn)
    (hg : p.lastSharedState.elim false (fun ls => Part000.isEquivalent p.deck ls) = false)
    (hb : ¬ (now - p.lastRemoteStateChange < opts.remoteStateChangeBlackout))
    (hf : ¬ (now - p.lastStateChange ≥ opts.stateDispatchDelay)) :
    (Part000.handleStateChange opts now p).stateDispatchTimer = some p.nextHandle ∧
    ({ handle := p.nextHandle, fireAt := now + opts.stateDispatchDelay, captured := p.deck } :
        Part000.StateTimer) ∈ (Part000.handleStateChange opts now p).pendingStateTimers ∧
    ∀ d : JsObj,
      (Part000.fireStateEntry opts
          { handle := p.nextHandle, fireAt := now + opts.stateDispatchDelay,
            captured := p.deck }
          { Part000.handleStateChange opts now p with deck := d }).stateDispatchTimer =
        none ∧
      (Part000.fireStateEntry opts
          { handle := p.nextHandle, fireAt := now + opts.stateDispatchDelay,
            captured := p.deck }
          { Part000.handleStateChange opts now p with deck := d }).lastSharedState =
        some p.deck ∧
      (Part000.fireStateEntry opts
          { handle := p.nextHandle, fireAt := now + opts.stateDispatchDelay,
            captured := p.deck }
          { Part000.handleStateChange opts now p with deck := d }).out =
        p.out ++ [(now + opts.stateDispatchDelay,
          { secret := opts.secret, socketId := opts.socketId, state := some p.deck,
            events := none })] := by
  cases ht : p.stateDispatchTimer with
  | none =>
    rw [hsc_schedule_none opts now p hg hb hf ht]
    refine ⟨rfl, by simp, fun d => ?_⟩
    unfold Part000.fireStateEntry Part000.dispatchStateChange
    simp
  | some h =>
    rw [hsc_schedule_some opts now p h hg hb hf ht]
    refine ⟨rfl, by simp, fun d => ?_⟩
    unfold Part000.fireStateEntry Part000.dispatchStateChange
    simp

/-- Witness for `trailing_timer_publishes_captured`: the plugin `c1plugin`
(last state change recorded at 2000) notified again at 2100, inside the
500 ms debounce window. -/
theorem trailing_timer_publishes_captured_witness :
    (c1plugin.lastSharedState.elim false
        (fun ls => Part000.isEquivalent c1plugin.deck ls) = false ∧
     ¬ ((2100 : Int) - c1plugin.lastRemoteStateChange < exOpts.remoteStateChangeBlackout) ∧
     ¬ ((2100 : Int) - c1plugin.lastStateChange ≥ exOpts.stateDispatchDelay)) ∧
    ((Part000.handleStateChange exOpts 2100 c1plugin).stateDispatchTimer =
        some c1plugin.nextHandle ∧
     ({ handle := c1plugin.nextHandle, fireAt := 2100 + exOpts.stateDispatchDelay,
        captured := c1plugin.deck } : Part000.StateTimer) ∈
       (Part000.handleStateChange exOpts 2100 c1plugin).pendingStateTimers ∧
     ∀ d : JsObj,
       (Part000.fireStateEntry exOpts
           { handle := c1plugin.nextHandle, fireAt := 2100 + exOpts.stateDispatchDelay,
             captured := c1plugin.deck }
           { Part000.handleStateChange exOpts 2100 c1plugin with deck := d }).stateDispatchTimer =
         none ∧
       (Part000.fireStateEntry exOpts
           { handle := c1plugin.nextHandle, fireAt := 2100 + exOpts.stateDispatchDelay,
             captured := c1plugin.deck }
           { Part000.handleStateChange exOpts 2100 c1plugin with deck := d }).lastSharedState =
         some c1plugin.deck ∧
       (Part000.fireStateEntry exOpts
           { handle := c1plugin.nextHandle, fireAt := 2100 + exOpts.stateDispatchDelay,
             captured := c1plugin.deck }
           { Part000.handleStateChange exOpts 2100 c1plugin with deck := d }).out =
         c1plugin.out ++ [(2100 + exOpts.stateDispatchDelay,
           { secret := exOpts.secret, socketId := exOpts.socketId,
             state := some c1plugin.deck, events := none })]) :=
  ⟨⟨by decide, by decide, by decide⟩,
   trailing_timer_publishes_captured exOpts 2100 c1plugin (by decide) (by decide) (by decide)⟩

/-- Claim C10 (confirmed): applying a remote state at `T` while a trailing
publish timer is pending neither cancels the timer nor clears the marker,
and when the timer then fires — even inside the blackout window the
remote application started, and even though its captured state is
equivalent to the state just applied — it publishes the captured state
unconditionally. -/
theorem pending_timer_fires_unconditionally (opts : Part000.Options) (T : Int)
    (data : Message) (p : Part000.BroadCastPlugIn) (e : Part000.StateTimer) (s : JsObj)
    (hpt : p.pendingStateTimers = [e]) (hfld : p.stateDispatchTimer = some e.handle)
    (hev : p.pendingEventTimers = [])
    (hid : data.socketId = opts.socketId) (hs : data.state = some s)
    (hbl : e.fireAt - T < opts.remoteStateChangeBlackout)
    (heq : Part000.isEquivalent e.captured s = true) :
    (Part000.handleReceivedMessage opts T data p).pendingStateTimers = [e] ∧
    (Part000.handleReceivedMessage opts T data p).stateDispatchTimer = some e.handle ∧
    (Part000.fireDue opts (some e.fireAt)
        (Part000.handleReceivedMessage opts T data p)).out =
      p.out ++ [(e.fireAt, { secret := opts.secret, socketId := opts.socketId,
                             state := some e.captured, events := none })] := by
  obtain ⟨-, -, -, hp1t, hp1f, hp1e, -, hp1o⟩ := hrm_state_fields opts T data p s hid hs
  refine ⟨hp1t.trans hpt, hp1f.trans hfld, ?_⟩
  rw [fireDue_single_state opts (some e.fireAt) _ e (hp1t.trans hpt) (hp1e.trans hev)
      (by simp [Part000.dueBy])]
  simp [hp1o]

/-- Witness for `pending_timer_fires_unconditionally`: timer `c10timer`
(captured slide 1, fires at 600) pending in `c10plugin`; a slide-1 state
message of channel `main` is applied at 590. -/
theorem pending_timer_fires_unconditionally_witness :
    (c10plugin.pendingStateTimers = [c10timer] ∧
     c10plugin.stateDispatchTimer = some c10timer.handle ∧
     c10plugin.pendingEventTimers = [] ∧
     exMsgRemote.socketId = exOptsMain.socketId ∧ exMsgRemote.state = some exS1 ∧
     c10timer.fireAt - 590 < exOptsMain.remoteStateChangeBlackout ∧
     Part000.isEquivalent c10timer.captured exS1 = true) ∧
    ((Part000.handleReceivedMessage exOptsMain 590 exMsgRemote c10plugin).pendingStateTimers =
        [c10timer] ∧
     (Part000.handleReceivedMessage exOptsMain 590 exMsgRemote c10plugin).stateDispatchTimer =
        some c10timer.handle ∧
     (Part000.fireDue exOptsMain (some c10timer.fireAt)
         (Part000.handleReceivedMessage exOptsMain 590 exMsgRemote c10plugin)).out =
       c10plugin.out ++ [(c10timer.fireAt,
         { secret := exOptsMain.secret, socketId := exOptsMain.socketId,
           state := some c10timer.captured, events := none })]) :=
  ⟨⟨by decide, by decide, by decide, by decide, by decide, by decide, by decide⟩,
   pending_timer_fires_unconditionally exOptsMain 590 exMsgRemote c10plugin c10timer exS1
     (by decide) (by decide) (by decide) (by decide) (by decide) (by decide) (by decide)⟩

/-- Unfolding `run` at the empty trace. -/
theorem run_nil (opts : Part000.Options) (p : Part000.BroadCastPlugIn) :
    Part000.run opts [] p = p := rfl

/-- A custom event that arrives inside the dispatch window while a flush
timer that is not yet due is pending only joins the queue. -/
theorem step_custom_ride (opts : Part000.Options) (t : Int) (c : JsVal)
    (q : Part000.BroadCastPlugIn) (n : Nat)
    (hqs : q.pendingStateTimers = [])
    (hqe : ∀ e ∈ q.pendingEventTimers, Part000.dueBy (some t) e.fireAt = false)
    (htm : q.eventDispatchTimer = some n)
    (hiv : ¬ (t - q.lastEventDispatch ≥ opts.eventDispatchDelay)) :
    Part000.step opts q (t, Part000.ExtEvent.customEvent c) =
      { q with eventQueue := q.eventQueue ++ [c] } := by
  rw [step_customEvent,
      fireDue_eq_self opts (some t) q (by rw [hqs]; intro e he; cases he) hqe,
      hce_ride opts t c q n hiv htm]

/-- Counterexample for claim C7: events within `eventDispatchDelay` of
each other need not be sent in a single batch.  From the constructor
state, two runs refute the single-batch guarantee in two ways: in
`c7trace` (events at 1000, 1010, 1020, well within 100 ms of each other)
the first event is flushed immediately in its own message at 1000 and the
other two go out together at 1100; in `c7trace2` (events at 90, 95, 120,
pairwise within 100 ms and the first inside the window since the last
dispatch) the flush timer fires at 100, between the second and the third
event, so the code emits `[e1, e2]` at 100 and `[e3]` at 200.  The second
run is what forces the amended claim to require that all the burst's
events arrive before the flush deadline. -/
theorem event_batching_cex :
    (Part000.drain exOpts (Part000.run exOpts c7trace (Part000.mkPlugin exS0))).out.map
        (fun m => m.2.events) = [some [JsVal.num 1], some [JsVal.num 2, JsVal.num 3]] ∧
    ¬ ((Part000.drain exOpts (Part000.run exOpts c7trace (Part000.mkPlugin exS0))).out.map
        (fun m => m.2.events) = [some [JsVal.num 1, JsVal.num 2, JsVal.num 3]]) ∧
    (Part000.drain exOpts (Part000.run exOpts c7trace2 (Part000.mkPlugin exS0))).out.map
        (fun m => (m.1, m.2.events)) =
      [(100, some [JsVal.num 1, JsVal.num 2]), (200, some [JsVal.num 3])] ∧
    ¬ ((Part000.drain exOpts (Part000.run exOpts c7trace2 (Part000.mkPlugin exS0))).out.map
        (fun m => m.2.events) = [some [JsVal.num 1, JsVal.num 2, JsVal.num 3]]) :=
  ⟨by decide, by decide, by decide, by decide⟩

/-- Claim C7 (amended): events `e1, e2, e3` that all arrive inside one
flush window — the first within `eventDispatchDelay` of the last dispatch
and all three before the resulting flush deadline
`lastEventDispatch + eventDispatchDelay`, at which the pending timer
fires — are sent in one outbound batch message in order `[e1, e2, e3]` at
that deadline.  An event arriving once `eventDispatchDelay` has elapsed
since the last dispatch is instead flushed immediately, so events spaced
at least `eventDispatchDelay` apart are sent in separate batches, in FIFO
order; flushing an empty queue is a no-op.  Being merely pairwise within
`eventDispatchDelay` of each other is not enough for a single batch: see
`event_batching_cex`, whose first run is split by a leading-edge
immediate flush and whose second is split by the timer firing
mid-burst. -/
theorem event_batching_amended (opts : Part000.Options) (p : Part000.BroadCastPlugIn)
    (e1 e2 e3 f1 f2 : JsVal) (t1 t2 t3 u1 u2 : Int)
    (hq : p.eventQueue = []) (het : p.eventDispatchTimer = none)
    (hpe : p.pendingEventTimers = []) (hps : p.pendingStateTimers = [])
    (hw1 : t1 - p.lastEventDispatch < opts.eventDispatchDelay)
    (h12 : t1 ≤ t2) (h23 : t2 ≤ t3)
    (hw3 : t3 < p.lastEventDispatch + opts.eventDispatchDelay)
    (hu1 : u1 - p.lastEventDispatch ≥ opts.eventDispatchDelay)
    (hu2 : u2 - u1 ≥ opts.eventDispatchDelay) :
    (Part000.drain opts (Part000.run opts
        [(t1, Part000.ExtEvent.customEvent e1), (t2, Part000.ExtEvent.customEvent e2),
         (t3, Part000.ExtEvent.customEvent e3)] p)).out =
      p.out ++ [(p.lastEventDispatch + opts.eventDispatchDelay,
        { secret := opts.secret, socketId := opts.socketId, state := none,
          events := some [e1, e2, e3] })] ∧
    (Part000.drain opts (Part000.run opts
        [(u1, Part000.ExtEvent.customEvent f1),
         (u2, Part000.ExtEvent.customEvent f2)] p)).out =
      p.out ++ [(u1, { secret := opts.secret, socketId := opts.socketId, state := none,
                       events := some [f1] }),
                (u2, { secret := opts.secret, socketId := opts.socketId, state := none,
                       events := some [f2] })] ∧
    (∀ (now : Int) (q : Part000.BroadCastPlugIn), q.eventQueue = [] →
      Part000.dispatchEventQueue opts now q = q) := by
  have hfdp : ∀ u : Option Int, Part000.fireDue opts u p = p := fun u =>
    fireDue_eq_self opts u p (by rw [hps]; intro e he; cases he)
      (by rw [hpe]; intro e he; cases he)
  refine ⟨?_, ?_, ?_⟩
  · -- the burst rides one timer and is flushed as a single batch
    have h1 : Part000.step opts p (t1, Part000.ExtEvent.customEvent e1) =
        { p with eventQueue := [e1],
                 pendingEventTimers := [{ handle := p.nextHandle,
                                          fireAt := p.lastEventDispatch + opts.eventDispatchDelay }],
                 eventDispatchTimer := some p.nextHandle,
                 nextHandle := p.nextHandle + 1 } := by
      rw [step_customEvent, hfdp, hce_schedule opts t1 e1 p (by omega) het, hq, hpe,
          show t1 + (opts.eventDispatchDelay - (t1 - p.lastEventDispatch)) =
            p.lastEventDispatch + opts.eventDispatchDelay from by ring]
      simp
    have h2 : Part000.step opts
        { p with eventQueue := [e1],
                 pendingEventTimers := [{ handle := p.nextHandle,
                                          fireAt := p.lastEventDispatch + opts.eventDispatchDelay }],
                 eventDispatchTimer := some p.nextHandle,
                 nextHandle := p.nextHandle + 1 }
        (t2, Part000.ExtEvent.customEvent e2) =
        { p with eventQueue := [e1, e2],
                 pendingEventTimers := [{ handle := p.nextHandle,
                                          fireAt := p.lastEventDispatch + opts.eventDispatchDelay }],
                 eventDispatchTimer := some p.nextHandle,
                 nextHandle := p.nextHandle + 1 } := by
      rw [step_custom_ride opts t2 e2 _ p.nextHandle (by simpa using hps)
        (by intro e he; simp at he; subst he; simp [Part000.dueBy]; omega)
        rfl (by simp; omega)]
      simp
    have h3 : Part000.step opts
        { p with eventQueue := [e1, e2],
                 pendingEventTimers := [{ handle := p.nextHandle,
                                          fireAt := p.lastEventDispatch + opts.eventDispatchDelay }],
                 eventDispatchTimer := some p.nextHandle,
                 nextHandle := p.nextHandle + 1 }
        (t3, Part000.ExtEvent.customEvent e3) =
        { p with eventQueue := [e1, e2, e3],
                 pendingEventTimers := [{ handle := p.nextHandle,
                                          fireAt := p.lastEventDispatch + opts.eventDispatchDelay }],
                 eventDispatchTimer := some p.nextHandle,
                 nextHandle := p.nextHandle + 1 } := by
      rw [step_custom_ride opts t3 e3 _ p.nextHandle (by simpa using hps)
        (by intro e he; simp at he; subst he; simp [Part000.dueBy]; omega)
        rfl (by simp; omega)]
      simp
    rw [run_cons, h1, run_cons, h2, run_cons, h3, run_nil]
    show (Part000.fireDue opts none _).out = _
    rw [fireDue_single_event opts none _
        { handle := p.nextHandle, fireAt := p.lastEventDispatch + opts.eventDispatchDelay }
        (by simpa using hps) rfl rfl (by simp)]
  · -- events spaced at least the delay apart are flushed immediately,
    -- each in its own batch
    have hB1 : Part000.step opts p (u1, Part000.ExtEvent.customEvent f1) =
        { p with eventQueue := [],
                 out := p.out ++ [(u1, { secret := opts.secret, socketId := opts.socketId,
                                         state := none, events := some [f1] })],
                 lastEventDispatch := u1 } := by
      rw [step_customEvent, hfdp, hce_immediate opts u1 f1 p hu1, hq]
      simp
    have hB2 : Part000.step opts
        { p with eventQueue := [],
                 out := p.out ++ [(u1, { secret := opts.secret, socketId := opts.socketId,
                                         state := none, events := some [f1] })],
                 lastEventDispatch := u1 }
        (u2, Part000.ExtEvent.customEvent f2) =
        { p with eventQueue := [],
                 out := p.out ++ [(u1, { secret := opts.secret, socketId := opts.socketId,
                                         state := none, events := some [f1] }),
                                  (u2, { secret := opts.secret, socketId := opts.socketId,
                                         state := none, events := some [f2] })],
                 lastEventDispatch := u2 } := by
      rw [step_customEvent,
          fireDue_eq_self opts (some u2) _ (by intro e he; simp [hps] at he)
            (by intro e he; simp [hpe] at he),
          hce_immediate opts u2 f2 _ (by simpa using hu2)]
      simp
    rw [run_cons, hB1, run_cons, hB2, run_nil]
    show (Part000.fireDue opts none _).out = _
    rw [fireDue_eq_self opts none _ (by intro e he; simp [hps] at he)
        (by intro e he; simp [hpe] at he)]
  · intro now q hq'
    unfold Part000.dispatchEventQueue
    simp [hq']

/-- Witness for `event_batching_amended`: from the constructor state,
events 1, 2, 3 at 10, 20, 30 ride one timer and flush together at 100;
events 4 and 5 at 100 and 200 flush immediately in separate batches. -/
theorem event_batching_amended_witness :
    ((Part000.mkPlugin exS0).eventQueue = [] ∧
     (Part000.mkPlugin exS0).eventDispatchTimer = none ∧
     (Part000.mkPlugin exS0).pendingEventTimers = [] ∧
     (Part000.mkPlugin exS0).pendingStateTimers = [] ∧
     (10 : Int) - (Part000.mkPlugin exS0).lastEventDispatch < exOpts.eventDispatchDelay ∧
     (10 : Int) ≤ 20 ∧ (20 : Int) ≤ 30 ∧
     (30 : Int) < (Part000.mkPlugin exS0).lastEventDispatch + exOpts.eventDispatchDelay ∧
     (100 : Int) - (Part000.mkPlugin exS0).lastEventDispatch ≥ exOpts.eventDispatchDelay ∧
     (200 : Int) - 100 ≥ exOpts.eventDispatchDelay) ∧
    ((Part000.drain exOpts (Part000.run exOpts
        [(10, Part000.ExtEvent.customEvent (JsVal.num 1)),
         (20, Part000.ExtEvent.customEvent (JsVal.num 2)),
         (30, Part000.ExtEvent.customEvent (JsVal.num 3))] (Part000.mkPlugin exS0))).out =
      (Part000.mkPlugin exS0).out ++
        [((Part000.mkPlugin exS0).lastEventDispatch + exOpts.eventDispatchDelay,
          { secret := exOpts.secret, socketId := exOpts.socketId, state := none,
            events := some [JsVal.num 1, JsVal.num 2, JsVal.num 3] })] ∧
     (Part000.drain exOpts (Part000.run exOpts
        [(100, Part000.ExtEvent.customEvent (JsVal.num 4)),
         (200, Part000.ExtEvent.customEvent (JsVal.num 5))] (Part000.mkPlugin exS0))).out =
      (Part000.mkPlugin exS0).out ++
        [(100, { secret := exOpts.secret, socketId := exOpts.socketId, state := none,
                 events := some [JsVal.num 4] }),
         (200, { secret := exOpts.secret, socketId := exOpts.socketId, state := none,
                 events := some [JsVal.num 5] })] ∧
     (∀ (now : Int) (q : Part000.BroadCastPlugIn), q.eventQueue = [] →
       Part000.dispatchEventQueue exOpts now q = q)) :=
  ⟨⟨rfl, rfl, rfl, rfl, by decide, by decide, by decide, by decide, by decide, by decide⟩,
   event_batching_amended exOpts (Part000.mkPlugin exS0)
     (JsVal.num 1) (JsVal.num 2) (JsVal.num 3) (JsVal.num 4) (JsVal.num 5)
     10 20 30 100 200 rfl rfl rfl rfl (by decide) (by decide) (by decide) (by decide)
     (by decide) (by decide)⟩

/-- Counterexample for claim C2: two `handleStateChange` calls at 2000 and
2100 — a window of 100 ms, shorter than the 500 ms `stateDispatchDelay` —
produce *two* publishes (the immediate one at 2000 and the trailing timer
one at 2600), and the only publish emitted inside the window is the
leading immediate one carrying the first state, not the trailing one
carrying the freshest state. -/
theorem rate_bound_cex :
    ¬ ((Part000.drain exOpts (Part000.run exOpts c2trace
          (Part000.mkPlugin exS0))).out.length ≤ 1) ∧
    (Part000.run exOpts c2trace (Part000.mkPlugin exS0)).out.map
        (fun m => (m.1, m.2.state)) = [(2000, some exS0)] :=
  ⟨by decide, by decide⟩

/-- One call of a burst confined to `[t1, tN]` with
`tN - t1 < stateDispatchDelay` preserves `RateInv`. -/
theorem rateInv_step (opts : Part000.Options) (L0 t1 tN : Int)
    (hwin : tN - t1 < opts.stateDispatchDelay)
    (p : Part000.BroadCastPlugIn) (t : Int) (s : JsObj)
    (ht1 : t1 ≤ t) (htN : t ≤ tN)
    (h : RateInv L0 t1 tN p) :
    RateInv L0 t1 tN (Part000.step opts p (t, Part000.ExtEvent.stateChange s)) := by
  obtain ⟨hev, hlen, hlsc, hone, hfire⟩ := h
  have hfd : Part000.fireDue opts (some t) p = p := by
    apply fireDue_eq_self
    · intro e he
      have := hfire e he
      simp only [Part000.dueBy, decide_eq_false_iff_not]
      omega
    · rw [hev]; intro e he; cases he
  rw [step_stateChange, hfd]
  by_cases hg : ({ p with deck := s } :
      Part000.BroadCastPlugIn).lastSharedState.elim false
      (fun ls => Part000.isEquivalent ({ p with deck := s } :
        Part000.BroadCastPlugIn).deck ls) = true
  · rw [hsc_noop_of_equiv opts t _ hg]
    exact ⟨hev, hlen, hlsc, hone, hfire⟩
  · by_cases hb : t - ({ p with deck := s } :
        Part000.BroadCastPlugIn).lastRemoteStateChange < opts.remoteStateChangeBlackout
    · rw [hsc_noop_of_blackout opts t _ hb]
      exact ⟨hev, hlen, hlsc, hone, hfire⟩
    · by_cases hfast : t - ({ p with deck := s } :
          Part000.BroadCastPlugIn).lastStateChange ≥ opts.stateDispatchDelay
      · rw [hsc_immediate opts t _ (by simpa using hg) hb hfast]
        have hfast' : t - p.lastStateChange ≥ opts.stateDispatchDelay := hfast
        have hq0 : p.out = [] := by
          by_contra hne
          have := hone hne
          omega
        refine ⟨hev, by simp [hq0], Or.inr ht1, fun _ => ht1, hfire⟩
      · cases htm : ({ p with deck := s } :
            Part000.BroadCastPlugIn).stateDispatchTimer with
        | none =>
          rw [hsc_schedule_none opts t _ (by simpa using hg) hb hfast htm]
          refine ⟨hev, hlen, Or.inr ht1, fun _ => ht1, ?_⟩
          intro e he
          simp only [List.mem_append, List.mem_singleton] at he
          rcases he with he | he
          · exact hfire e he
          · subst he; simp; omega
        | some hh =>
          rw [hsc_schedule_some opts t _ hh (by simpa using hg) hb hfast htm]
          refine ⟨hev, hlen, Or.inr ht1, fun _ => ht1, ?_⟩
          intro e he
          simp only [List.mem_append, List.mem_singleton, List.mem_filter] at he
          rcases he with ⟨he, -⟩ | he
          · exact hfire e he
          · subst he; simp; omega

/-- `RateInv` is preserved along a whole burst. -/
theorem rateInv_run (opts : Part000.Options) (L0 t1 tN : Int)
    (hwin : tN - t1 < opts.stateDispatchDelay)
    (calls : List (Int × JsObj))
    (hts : ∀ c ∈ calls, t1 ≤ c.1 ∧ c.1 ≤ tN)
    (p : Part000.BroadCastPlugIn) (h : RateInv L0 t1 tN p) :
    RateInv L0 t1 tN
      (Part000.run opts (calls.map fun c => (c.1, Part000.ExtEvent.stateChange c.2)) p) := by
  induction calls generalizing p with
  | nil => exact h
  | cons c rest ih =>
    rw [List.map_cons, run_cons]
    exact ih (fun d hd => hts d (List.mem_cons_of_mem _ hd)) _
      (rateInv_step opts L0 t1 tN hwin p c.1 c.2
        (hts c (List.mem_cons_self c rest)).1 (hts c (List.mem_cons_self c rest)).2 h)

/-- Claim C2 (amended): for every sequence of `handleStateChange` calls at
instants of `[t1, tN]` with `tN - t1 < stateDispatchDelay`, starting from
a state with no output and no pending timers, at most one publish is
emitted during the burst (the leading immediate one, if any); every
pending trailing timer fires only after `tN`, i.e. after the window, and
by `trailing_timer_publishes_captured` it then carries the state captured
when it was last (re)scheduled. -/
theorem rate_bound_window (opts : Part000.Options) (p : Part000.BroadCastPlugIn)
    (calls : List (Int × JsObj)) (t1 tN : Int)
    (hout : p.out = []) (hpt : p.pendingStateTimers = [])
    (hev : p.pendingEventTimers = [])
    (hwin : tN - t1 < opts.stateDispatchDelay)
    (hts : ∀ c ∈ calls, t1 ≤ c.1 ∧ c.1 ≤ tN) :
    (Part000.run opts (calls.map fun c => (c.1, Part000.ExtEvent.stateChange c.2))
        p).out.length ≤ 1 ∧
    ∀ e ∈ (Part000.run opts (calls.map fun c => (c.1, Part000.ExtEvent.stateChange c.2))
        p).pendingStateTimers, tN < e.fireAt := by
  have h0 : RateInv p.lastStateChange t1 tN p :=
    ⟨hev, by simp [hout], Or.inl rfl, fun hne => absurd hout hne,
     by rw [hpt]; intro e he; cases he⟩
  have h := rateInv_run opts p.lastStateChange t1 tN hwin calls hts p h0
  exact ⟨h.2.1, h.2.2.2.2⟩

/-- Witness for `rate_bound_window`: two calls at 1000 and 1040 from the
constructor state. -/
theorem rate_bound_window_witness :
    ((Part000.mkPlugin exS0).out = [] ∧
     (Part000.mkPlugin exS0).pendingStateTimers = [] ∧
     (Part000.mkPlugin exS0).pendingEventTimers = [] ∧
     (1040 : Int) - 1000 < exOpts.stateDispatchDelay ∧
     (∀ c ∈ [((1000 : Int), exS1), ((1040 : Int), exS0)],
        (1000 : Int) ≤ c.1 ∧ c.1 ≤ (1040 : Int))) ∧
    ((Part000.run exOpts
        ([((1000 : Int), exS1), ((1040 : Int), exS0)].map
          fun c => (c.1, Part000.ExtEvent.stateChange c.2))
        (Part000.mkPlugin exS0)).out.length ≤ 1 ∧
     ∀ e ∈ (Part000.run exOpts
        ([((1000 : Int), exS1), ((1040 : Int), exS0)].map
          fun c => (c.1, Part000.ExtEvent.stateChange c.2))
        (Part000.mkPlugin exS0)).pendingStateTimers, (1040 : Int) < e.fireAt) :=
  ⟨⟨rfl, rfl, rfl, by decide, by decide⟩,
   rate_bound_window exOpts (Part000.mkPlugin exS0)
     [((1000 : Int), exS1), ((1040 : Int), exS0)] 1000 1040 rfl rfl rfl
     (by decide) (by decide)⟩

/-- One state-change notification with the deck unchanged at `s`
preserves `IdemInv`. -/
theorem idemInv_step (opts : Part000.Options) (s : JsObj)
    (p : Part000.BroadCastPlugIn) (t : Int) (h : IdemInv opts s p) :
    IdemInv opts s (Part000.step opts p (t, Part000.ExtEvent.stateChange s)) := by
  obtain ⟨hev, hA | hB | hC⟩ := h
  · obtain ⟨hout, hfld, hpt⟩ := hA
    have hfd : Part000.fireDue opts (some t) p = p :=
      fireDue_eq_self opts (some t) p (by rw [hpt]; intro e he; cases he)
        (by rw [hev]; intro e he; cases he)
    rw [step_stateChange, hfd]
    by_cases hg : ({ p with deck := s } :
        Part000.BroadCastPlugIn).lastSharedState.elim false
        (fun ls => Part000.isEquivalent ({ p with deck := s } :
          Part000.BroadCastPlugIn).deck ls) = true
    · rw [hsc_noop_of_equiv opts t _ hg]
      exact ⟨hev, Or.inl ⟨hout, hfld, hpt⟩⟩
    · by_cases hb : t - ({ p with deck := s } :
          Part000.BroadCastPlugIn).lastRemoteStateChange < opts.remoteStateChangeBlackout
      · rw [hsc_noop_of_blackout opts t _ hb]
        exact ⟨hev, Or.inl ⟨hout, hfld, hpt⟩⟩
      · by_cases hfast : t - ({ p with deck := s } :
            Part000.BroadCastPlugIn).lastStateChange ≥ opts.stateDispatchDelay
        · rw [hsc_immediate opts t _ (by simpa using hg) hb hfast]
          exact ⟨hev, Or.inr (Or.inr ⟨s, by simp [hout], hfld, hpt, rfl,
            isEquivalent_refl s⟩)⟩
        · rw [hsc_schedule_none opts t _ (by simpa using hg) hb hfast hfld]
          exact ⟨hev, Or.inr (Or.inl ⟨p.nextHandle, t + opts.stateDispatchDelay, hout,
            rfl, by simp [hpt], by simp⟩)⟩
  · obtain ⟨hh, ft, hout, hfld, hpt, hft⟩ := hB
    by_cases hdue : ft ≤ t
    · have hfd := fireDue_single_state opts (some t) p
        { handle := hh, fireAt := ft, captured := s } hpt hev
        (by simp [Part000.dueBy, hdue])
      rw [step_stateChange, hfd, hsc_noop_of_equiv opts t _ (by simp [isEquivalent_refl])]
      exact ⟨hev, Or.inr (Or.inr ⟨s, by simp [hout], rfl, rfl, rfl,
        isEquivalent_refl s⟩)⟩
    · have hfd : Part000.fireDue opts (some t) p = p :=
        fireDue_eq_self opts (some t) p
          (by rw [hpt]; intro e he; simp at he; subst he; simp [Part000.dueBy]; omega)
          (by rw [hev]; intro e he; cases he)
      rw [step_stateChange, hfd]
      by_cases hg : ({ p with deck := s } :
          Part000.BroadCastPlugIn).lastSharedState.elim false
          (fun ls => Part000.isEquivalent ({ p with deck := s } :
            Part000.BroadCastPlugIn).deck ls) = true
      · rw [hsc_noop_of_equiv opts t _ hg]
        exact ⟨hev, Or.inr (Or.inl ⟨hh, ft, hout, hfld, hpt, hft⟩)⟩
      · by_cases hb : t - ({ p with deck := s } :
            Part000.BroadCastPlugIn).lastRemoteStateChange < opts.remoteStateChangeBlackout
        · rw [hsc_noop_of_blackout opts t _ hb]
          exact ⟨hev, Or.inr (Or.inl ⟨hh, ft, hout, hfld, hpt, hft⟩)⟩
        · rw [hsc_schedule_some opts t _ hh (by simpa using hg) hb
            (by show ¬ (t - p.lastStateChange ≥ opts.stateDispatchDelay); omega) hfld]
          refine ⟨hev, Or.inr (Or.inl ⟨p.nextHandle, t + opts.stateDispatchDelay, hout,
            rfl, ?_, by simp⟩)⟩
          simp [hpt]
  · obtain ⟨s', hlen1, hfld, hpt, hls, hequi⟩ := hC
    have hfd : Part000.fireDue opts (some t) p = p :=
      fireDue_eq_self opts (some t) p (by rw [hpt]; intro e he; cases he)
        (by rw [hev]; intro e he; cases he)
    rw [step_stateChange, hfd, hsc_noop_of_equiv opts t _ (by simp [hls, hequi])]
    exact ⟨hev, Or.inr (Or.inr ⟨s', hlen1, hfld, hpt, hls, hequi⟩)⟩

/-- `IdemInv` is preserved along any sequence of unchanged-state
notifications. -/
theorem idemInv_run (opts : Part000.Options) (s : JsObj) (ts : List Int)
    (p : Part000.BroadCastPlugIn) (h : IdemInv opts s p) :
    IdemInv opts s
      (Part000.run opts (ts.map fun t => (t, Part000.ExtEvent.stateChange s)) p) := by
  induction ts generalizing p with
  | nil => exact h
  | cons t rest ih =>
    rw [List.map_cons, run_cons]
    exact ih _ (idemInv_step opts s p t h)

/-- Draining a session that satisfies `IdemInv` leaves at most one
emission. -/
theorem idemInv_drain (opts : Part000.Options) (s : JsObj)
    (p : Part000.BroadCastPlugIn) (h : IdemInv opts s p) :
    (Part000.drain opts p).out.length ≤ 1 := by
  obtain ⟨hev, hA | hB | hC⟩ := h
  · obtain ⟨hout, -, hpt⟩ := hA
    rw [show Part000.drain opts p = p from
      fireDue_eq_self opts none p (by rw [hpt]; intro e he; cases he)
        (by rw [hev]; intro e he; cases he)]
    simp [hout]
  · obtain ⟨hh, ft, hout, -, hpt, -⟩ := hB
    rw [show Part000.drain opts p = _ from fireDue_single_state opts none p
      { handle := hh, fireAt := ft, captured := s } hpt hev rfl]
    simp [hout]
  · obtain ⟨s', hlen1, -, hpt, -, -⟩ := hC
    rw [show Part000.drain opts p = p from
      fireDue_eq_self opts none p (by rw [hpt]; intro e he; cases he)
        (by rw [hev]; intro e he; cases he)]
    omega

/-- Claim C5 (confirmed): starting from a session with no output and no
pending timers, any number of `handleStateChange` notifications while the
deck state stays `s`, followed by letting every pending timer fire,
issues at most one publish in total. -/
theorem repeated_state_change_publishes_once (opts : Part000.Options)
    (p : Part000.BroadCastPlugIn) (s : JsObj) (ts : List Int)
    (hout : p.out = []) (hfld : p.stateDispatchTimer = none)
    (hpt : p.pendingStateTimers = []) (hev : p.pendingEventTimers = []) :
    (Part000.drain opts (Part000.run opts
        (ts.map fun t => (t, Part000.ExtEvent.stateChange s)) p)).out.length ≤ 1 :=
  idemInv_drain opts s _
    (idemInv_run opts s ts p ⟨hev, Or.inl ⟨hout, hfld, hpt⟩⟩)

/-- Witness for `repeated_state_change_publishes_once`: three
notifications at 1000, 1010 and 1300 with the deck at slide 1. -/
theorem repeated_state_change_publishes_once_witness :
    ((Part000.mkPlugin exS0).out = [] ∧
     (Part000.mkPlugin exS0).stateDispatchTimer = none ∧
     (Part000.mkPlugin exS0).pendingStateTimers = [] ∧
     (Part000.mkPlugin exS0).pendingEventTimers = []) ∧
    (Part000.drain exOpts (Part000.run exOpts
        (([(1000 : Int), 1010, 1300]).map
          fun t => (t, Part000.ExtEvent.stateChange exS1))
        (Part000.mkPlugin exS0))).out.length ≤ 1 :=
  ⟨⟨rfl, rfl, rfl, rfl⟩,
   repeated_state_change_publishes_once exOpts (Part000.mkPlugin exS0) exS1
     [1000, 1010, 1300] rfl rfl rfl rfl⟩

/-- Unfolding `step` at an inbound message. -/
theorem step_received (opts : Part000.Options) (p : Part000.BroadCastPlugIn)
    (t : Int) (d : Message) :
    Part000.step opts p (t, Part000.ExtEvent.received d) =
      Part000.handleReceivedMessage opts t d (Part000.fireDue opts (some t) p) := rfl

/-- `handleStateChange` preserves the timer wiring. -/
theorem timerWired_hsc (opts : Part000.Options) (t : Int)
    (p : Part000.BroadCastPlugIn) (h : TimerWired p) :
    TimerWired (Part000.handleStateChange opts t p) := by
  obtain ⟨hst, hev⟩ := h
  by_cases hg : p.lastSharedState.elim false
      (fun ls => Part000.isEquivalent p.deck ls) = true
  · rw [hsc_noop_of_equiv opts t p hg]; exact ⟨hst, hev⟩
  · by_cases hb : t - p.lastRemoteStateChange < opts.remoteStateChangeBlackout
    · rw [hsc_noop_of_blackout opts t p hb]; exact ⟨hst, hev⟩
    · by_cases hfast : t - p.lastStateChange ≥ opts.stateDispatchDelay
      · rw [hsc_immediate opts t p (by simpa using hg) hb hfast]
        exact ⟨hst, hev⟩
      · cases htm : p.stateDispatchTimer with
        | none =>
          rw [hsc_schedule_none opts t p (by simpa using hg) hb hfast htm]
          rcases hst with ⟨-, hpt⟩ | ⟨e, he1, -⟩
          · exact ⟨Or.inr ⟨{ handle := p.nextHandle,
                             fireAt := t + opts.stateDispatchDelay,
                             captured := p.deck }, rfl, by simp [hpt]⟩, hev⟩
          · rw [htm] at he1; cases he1
        | some hh =>
          rw [hsc_schedule_some opts t p hh (by simpa using hg) hb hfast htm]
          rcases hst with ⟨he1, -⟩ | ⟨e, he1, he2⟩
          · rw [htm] at he1; cases he1
          · have hhe : e.handle = hh := by
              rw [htm] at he1; exact (Option.some_injective _ he1).symm
            exact ⟨Or.inr ⟨{ handle := p.nextHandle,
                             fireAt := t + opts.stateDispatchDelay,
                             captured := p.deck }, rfl, by simp [he2, hhe]⟩, hev⟩

/-- `handleCustomEvent` preserves the timer wiring. -/
theorem timerWired_hce (opts : Part000.Options) (t : Int) (c : JsVal)
    (p : Part000.BroadCastPlugIn) (h : TimerWired p) :
    TimerWired (Part000.handleCustomEvent opts t c p) := by
  obtain ⟨hst, hev⟩ := h
  by_cases himm : t - p.lastEventDispatch ≥ opts.eventDispatchDelay
  · rw [hce_immediate opts t c p himm]; exact ⟨hst, hev⟩
  · cases htm : p.eventDispatchTimer with
    | some hh =>
      rw [hce_ride opts t c p hh himm htm]; exact ⟨hst, hev⟩
    | none =>
      rw [hce_schedule opts t c p himm htm]
      rcases hev with ⟨-, hpt⟩ | ⟨e, he1, -⟩
      · exact ⟨hst, Or.inr ⟨{ handle := p.nextHandle,
                              fireAt := t + (opts.eventDispatchDelay -
                                (t - p.lastEventDispatch)) }, rfl, by simp [hpt]⟩⟩
      · rw [htm] at he1; cases he1

/-- `handleReceivedMessage` preserves the timer wiring (it never touches a
timer). -/
theorem timerWired_hrm (opts : Part000.Options) (t : Int) (data : Message)
    (p : Part000.BroadCastPlugIn) (h : TimerWired p) :
    TimerWired (Part000.handleReceivedMessage opts t data p) := by
  unfold Part000.handleReceivedMessage
  split
  · exact h
  · cases data.state <;> cases data.events <;> exact h

/-- Firing the due state timers of a wired plugin keeps the state wiring
and leaves the event side untouched. -/
theorem fireStateList_wired (opts : Part000.Options) (upTo : Option Int)
    (p : Part000.BroadCastPlugIn)
    (hst : (p.stateDispatchTimer = none ∧ p.pendingStateTimers = []) ∨
      (∃ e : Part000.StateTimer, p.stateDispatchTimer = some e.handle ∧
        p.pendingStateTimers = [e])) :
    ∃ q : Part000.BroadCastPlugIn,
      Part000.fireStateList opts upTo p.pendingStateTimers p = q ∧
      ((q.stateDispatchTimer = none ∧ q.pendingStateTimers = []) ∨
       (∃ e : Part000.StateTimer, q.stateDispatchTimer = some e.handle ∧
          q.pendingStateTimers = [e])) ∧
      q.pendingEventTimers = p.pendingEventTimers ∧
      q.eventDispatchTimer = p.eventDispatchTimer := by
  rcases hst with ⟨hfld, hpt⟩ | ⟨e, hfld, hpt⟩
  · exact ⟨p, by rw [hpt, fireStateList_nil], Or.inl ⟨hfld, hpt⟩, rfl, rfl⟩
  · by_cases hdue : Part000.dueBy upTo e.fireAt = true
    · refine ⟨Part000.fireStateEntry opts e p, ?_, Or.inl ⟨rfl, ?_⟩, rfl, rfl⟩
      · rw [hpt]
        simp only [Part000.fireStateList, hdue, if_true, fireStateList_nil]
      · show (Part000.fireStateEntry opts e p).pendingStateTimers = []
        unfold Part000.fireStateEntry Part000.dispatchStateChange
        simp [hpt]
    · have hdue' : Part000.dueBy upTo e.fireAt = false := by simpa using hdue
      exact ⟨p, by rw [hpt]; simp only [Part000.fireStateList, hdue',
        Bool.false_eq_true, if_false, fireStateList_nil], Or.inr ⟨e, hfld, hpt⟩,
        rfl, rfl⟩

/-- Firing the due event timers of a wired plugin keeps the event wiring
and leaves the state side untouched. -/
theorem fireEventList_wired (opts : Part000.Options) (upTo : Option Int)
    (p : Part000.BroadCastPlugIn)
    (hev : (p.eventDispatchTimer = none ∧ p.pendingEventTimers = []) ∨
      (∃ e : Part000.EventTimer, p.eventDispatchTimer = some e.handle ∧
        p.pendingEventTimers = [e])) :
    ∃ q : Part000.BroadCastPlugIn,
      Part000.fireEventList opts upTo p.pendingEventTimers p = q ∧
      ((q.eventDispatchTimer = none ∧ q.pendingEventTimers = []) ∨
       (∃ e : Part000.EventTimer, q.eventDispatchTimer = some e.handle ∧
          q.pendingEventTimers = [e])) ∧
      q.stateDispatchTimer = p.stateDispatchTimer ∧
      q.pendingStateTimers = p.pendingStateTimers := by
  rcases hev with ⟨hfld, hpt⟩ | ⟨e, hfld, hpt⟩
  · exact ⟨p, by rw [hpt, fireEventList_nil], Or.inl ⟨hfld, hpt⟩, rfl, rfl⟩
  · by_cases hdue : Part000.dueBy upTo e.fireAt = true
    · refine ⟨Part000.fireEventEntry opts e p, ?_, Or.inl ⟨?_, ?_⟩, ?_, ?_⟩
      · rw [hpt]
        simp only [Part000.fireEventList, hdue, if_true, fireEventList_nil]
      · show (Part000.fireEventEntry opts e p).eventDispatchTimer = none
        unfold Part000.fireEventEntry Part000.dispatchEventQueue
        split <;> rfl
      · show (Part000.fireEventEntry opts e p).pendingEventTimers = []
        unfold Part000.fireEventEntry Part000.dispatchEventQueue
        split <;> simp [hpt]
      · show (Part000.fireEventEntry opts e p).stateDispatchTimer = p.stateDispatchTimer
        unfold Part000.fireEventEntry Part000.dispatchEventQueue
        split <;> rfl
      · show (Part000.fireEventEntry opts e p).pendingStateTimers = p.pendingStateTimers
        unfold Part000.fireEventEntry Part000.dispatchEventQueue
        split <;> rfl
    · have hdue' : Part000.dueBy upTo e.fireAt = false := by simpa using hdue
      exact ⟨p, by rw [hpt]; simp only [Part000.fireEventList, hdue',
        Bool.false_eq_true, if_false, fireEventList_nil], Or.inr ⟨e, hfld, hpt⟩,
        rfl, rfl⟩

/-- `fireDue` preserves the timer wiring. -/
theorem timerWired_fireDue (opts : Part000.Options) (upTo : Option Int)
    (p : Part000.BroadCastPlugIn) (h : TimerWired p) :
    TimerWired (Part000.fireDue opts upTo p) := by
  obtain ⟨hst, hev⟩ := h
  obtain ⟨q, hq, hqs, hqe, hqf⟩ := fireStateList_wired opts upTo p hst
  show TimerWired (Part000.fireEventList opts upTo
      (Part000.fireStateList opts upTo p.pendingStateTimers p).pendingEventTimers
      (Part000.fireStateList opts upTo p.pendingStateTimers p))
  rw [hq]
  have hev' : (q.eventDispatchTimer = none ∧ q.pendingEventTimers = []) ∨
      (∃ e : Part000.EventTimer, q.eventDispatchTimer = some e.handle ∧
        q.pendingEventTimers = [e]) := by
    rcases hev with ⟨h1, h2⟩ | ⟨e, h1, h2⟩
    · exact Or.inl ⟨hqf.trans h1, hqe.trans h2⟩
    · exact Or.inr ⟨e, hqf.trans h1, hqe.trans h2⟩
  obtain ⟨r, hr, hre, hrs, hrp⟩ := fireEventList_wired opts upTo q hev'
  rw [hr]
  refine ⟨?_, hre⟩
  rcases hqs with ⟨h1, h2⟩ | ⟨e, h1, h2⟩
  · exact Or.inl ⟨hrs.trans h1, hrp.trans h2⟩
  · exact Or.inr ⟨e, hrs.trans h1, hrp.trans h2⟩

/-- Every step of a session preserves the timer wiring. -/
theorem timerWired_step (opts : Part000.Options) (p : Part000.BroadCastPlugIn)
    (te : Int × Part000.ExtEvent) (h : TimerWired p) :
    TimerWired (Part000.step opts p te) := by
  obtain ⟨t, ev⟩ := te
  cases ev with
  | stateChange s =>
    rw [step_stateChange]
    exact timerWired_hsc opts t _ (timerWired_fireDue opts (some t) p h)
  | customEvent c =>
    rw [step_customEvent]
    exact timerWired_hce opts t c _ (timerWired_fireDue opts (some t) p h)
  | received d =>
    rw [step_received]
    exact timerWired_hrm opts t d _ (timerWired_fireDue opts (some t) p h)

/-- The timer wiring holds along every session run from the constructor
state. -/
theorem timerWired_run (opts : Part000.Options)
    (trace : List (Int × Part000.ExtEvent)) (p : Part000.BroadCastPlugIn)
    (h : TimerWired p) : TimerWired (Part000.run opts trace p) := by
  induction trace generalizing p with
  | nil => exact h
  | cons te rest ih => rw [run_cons]; exact ih _ (timerWired_step opts p te h)

/-- Claim C8 (confirmed): in every state reachable from the constructor
state by any sequence of externally timed stimuli (with timers fired as
they fall due), at most one state-dispatch timer and at most one
event-flush timer are pending: scheduling a new debounce timer first
clears the pending one (`handleStateChange`, else branch) and a flush
timer is only created when none is pending (`handleCustomEvent`). -/
theorem at_most_one_pending_timer (opts : Part000.Options) (d0 : JsObj)
    (trace : List (Int × Part000.ExtEvent)) :
    (Part000.run opts trace (Part000.mkPlugin d0)).pendingStateTimers.length ≤ 1 ∧
    (Part000.run opts trace (Part000.mkPlugin d0)).pendingEventTimers.length ≤ 1 := by
  obtain ⟨hst, hev⟩ := timerWired_run opts trace (Part000.mkPlugin d0)
    ⟨Or.inl ⟨rfl, rfl⟩, Or.inl ⟨rfl, rfl⟩⟩
  constructor
  · rcases hst with ⟨-, h2⟩ | ⟨e, -, h2⟩ <;> simp [h2]
  · rcases hev with ⟨-, h2⟩ | ⟨e, -, h2⟩ <;> simp [h2]
